import Mathlib

/-!
# ez_pqcrypto: the PQClean API headers of FrodoKEM-1344-SHAKE and Rainbow-Vc-classic

Shallow embedding of

* `pqclean/crypto_kem/frodokem1344shake/opt/api.h`
* `pqclean/crypto_sign/rainbowVc-classic/clean/api.h`

Each `#define` of a header is a Lean constant of the same name and value.  The
formulas written in the trailing comments of the FrodoKEM header are functions
of the parameter macros they mention (`PARAMS_N`, `PARAMS_NBAR`, ...), which
are defined in another file of the implementation and are therefore taken as
parameters here.
-/

namespace PQClean

/-! ## FrodoKEM-1344-SHAKE, `opt/api.h` -/

/-- Line 7: `#define PQCLEAN_FRODOKEM1344SHAKE_OPT_CRYPTO_SECRETKEYBYTES  43088`. -/
def PQCLEAN_FRODOKEM1344SHAKE_OPT_CRYPTO_SECRETKEYBYTES : Nat := 43088

/-- Line 8: `#define PQCLEAN_FRODOKEM1344SHAKE_OPT_CRYPTO_PUBLICKEYBYTES  21520`. -/
def PQCLEAN_FRODOKEM1344SHAKE_OPT_CRYPTO_PUBLICKEYBYTES : Nat := 21520

/-- Line 9: `#define PQCLEAN_FRODOKEM1344SHAKE_OPT_CRYPTO_BYTES              32`. -/
def PQCLEAN_FRODOKEM1344SHAKE_OPT_CRYPTO_BYTES : Nat := 32

/-- Line 10: `#define PQCLEAN_FRODOKEM1344SHAKE_OPT_CRYPTO_CIPHERTEXTBYTES 21632`. -/
def PQCLEAN_FRODOKEM1344SHAKE_OPT_CRYPTO_CIPHERTEXTBYTES : Nat := 21632

/-- Line 12: `#define PQCLEAN_FRODOKEM1344SHAKE_OPT_CRYPTO_ALGNAME "FrodoKEM-1344-SHAKE"`. -/
def PQCLEAN_FRODOKEM1344SHAKE_OPT_CRYPTO_ALGNAME : String := "FrodoKEM-1344-SHAKE"

/-- The parameter macros and object sizes that the comments of lines 7, 8 and
10 refer to.  None of them is defined in `api.h`; they are parameters of the
formulas below. -/
structure FrodoParams where
  /-- The macro `PARAMS_N`. -/
  PARAMS_N : Nat
  /-- The macro `PARAMS_NBAR`. -/
  PARAMS_NBAR : Nat
  /-- The macro `PARAMS_LOGQ`. -/
  PARAMS_LOGQ : Nat
  /-- The value of `sizeof(s)`. -/
  sizeof_s : Nat
  /-- The value of `sizeof(seed_A)`. -/
  sizeof_seed_A : Nat
  /-- The macro `BYTES_PKHASH`. -/
  BYTES_PKHASH : Nat
  deriving DecidableEq, Repr

/-- Comment of line 7:
`sizeof(s) + CRYPTO_PUBLICKEYBYTES + 2*PARAMS_N*PARAMS_NBAR + BYTES_PKHASH`,
where `CRYPTO_PUBLICKEYBYTES` is the constant of line 8. -/
def secretKeyBytesFormula (p : FrodoParams) : Nat :=
  p.sizeof_s + PQCLEAN_FRODOKEM1344SHAKE_OPT_CRYPTO_PUBLICKEYBYTES
    + 2 * p.PARAMS_N * p.PARAMS_NBAR + p.BYTES_PKHASH

/-- Comment of line 8: `sizeof(seed_A) + (PARAMS_LOGQ*PARAMS_N*PARAMS_NBAR)/8`
(C integer division). -/
def publicKeyBytesFormula (p : FrodoParams) : Nat :=
  p.sizeof_seed_A + (p.PARAMS_LOGQ * p.PARAMS_N * p.PARAMS_NBAR) / 8

/-- Comment of line 10:
`(PARAMS_LOGQ*PARAMS_N*PARAMS_NBAR)/8 + (PARAMS_LOGQ*PARAMS_NBAR*PARAMS_NBAR)/8`
(C integer division). -/
def ciphertextBytesFormula (p : FrodoParams) : Nat :=
  (p.PARAMS_LOGQ * p.PARAMS_N * p.PARAMS_NBAR) / 8
    + (p.PARAMS_LOGQ * p.PARAMS_NBAR * p.PARAMS_NBAR) / 8

/-- The FrodoKEM-1344 parameter values at which the formulas are evaluated. -/
def frodo1344Params : FrodoParams where
  PARAMS_N := 1344
  PARAMS_NBAR := 8
  PARAMS_LOGQ := 16
  sizeof_s := 32
  sizeof_seed_A := 16
  BYTES_PKHASH := 32

/-! ## Rainbow-Vc-classic, `clean/api.h` -/

/-- Line 7: `#define PQCLEAN_RAINBOWVCCLASSIC_CLEAN_CRYPTO_SECRETKEYBYTES 1227104`. -/
def PQCLEAN_RAINBOWVCCLASSIC_CLEAN_CRYPTO_SECRETKEYBYTES : Nat := 1227104

/-- Line 8: `#define PQCLEAN_RAINBOWVCCLASSIC_CLEAN_CRYPTO_PUBLICKEYBYTES 1705536`. -/
def PQCLEAN_RAINBOWVCCLASSIC_CLEAN_CRYPTO_PUBLICKEYBYTES : Nat := 1705536

/-- Line 9: `#define PQCLEAN_RAINBOWVCCLASSIC_CLEAN_CRYPTO_BYTES 204`. -/
def PQCLEAN_RAINBOWVCCLASSIC_CLEAN_CRYPTO_BYTES : Nat := 204

/-- Line 10:
`#define PQCLEAN_RAINBOWVCCLASSIC_CLEAN_CRYPTO_ALGNAME "RAINBOW(256,92,48,48) - classic"`. -/
def PQCLEAN_RAINBOWVCCLASSIC_CLEAN_CRYPTO_ALGNAME : String :=
  "RAINBOW(256,92,48,48) - classic"

/-- The bytes of a C string literal without its terminating NUL: the code
points of the characters, each of which is below 128 in both headers. -/
def literalBytes (s : String) : List Nat :=
  s.data.map Char.toNat

/-- Accumulating scan that reads the maximal runs of decimal digits of a
character list; `cur` is the run being read, `acc` the runs already closed
(most recent first). -/
def digitRuns : List Char → Option Nat → List Nat → List Nat
  | [], none, acc => acc.reverse
  | [], some n, acc => (n :: acc).reverse
  | c :: cs, cur, acc =>
    if c.isDigit then
      digitRuns cs (some (cur.getD 0 * 10 + (c.toNat - 48))) acc
    else
      match cur with
      | none => digitRuns cs none acc
      | some n => digitRuns cs none (n :: acc)

/-- The decimal numbers that occur in an algorithm name, in order of
appearance. -/
def algnameNumbers (s : String) : List Nat :=
  digitRuns s.data none []

/-! ## The functions declared by the two headers

Both headers only declare their functions; the bodies live in other files of
the implementations.  An implementation is therefore a parameter: a record
with one field per declared function.  A C function that fills caller-owned
output buffers and returns an `int` status is a function from its `const`
inputs and the state `σ` of its surroundings (the randomness source, the heap)
to the new state, the status and the contents written to the output buffers.
A buffer passed together with its length (`m, mlen`, `sig, siglen`,
`sm, smlen`) is one list. -/

/-- A buffer of `uint8_t`. -/
abbrev Bytes := List (Fin 256)

/-- The three functions declared in lines 14 to 18 of the FrodoKEM header. -/
structure KemImplementation (σ : Type) where
  /-- The declaration `int crypto_kem_keypair(uint8_t *pk, uint8_t *sk)`:
  status, `pk`, `sk`. -/
  crypto_kem_keypair : σ → σ × Int × Bytes × Bytes
  /-- The declaration
  `int crypto_kem_enc(uint8_t *ct, uint8_t *ss, const uint8_t *pk)`:
  status, `ct`, `ss`. -/
  crypto_kem_enc : (pk : Bytes) → σ → σ × Int × Bytes × Bytes
  /-- The declaration
  `int crypto_kem_dec(uint8_t *ss, const uint8_t *ct, const uint8_t *sk)`:
  status, `ss`. -/
  crypto_kem_dec : (ct sk : Bytes) → σ → σ × Int × Bytes

/-- The five functions declared in lines 12 to 29 of the Rainbow header. -/
structure SignImplementation (σ : Type) where
  /-- The declaration `int crypto_sign_keypair(uint8_t *pk, uint8_t *sk)`:
  status, `pk`, `sk`. -/
  crypto_sign_keypair : σ → σ × Int × Bytes × Bytes
  /-- The declaration `int crypto_sign_signature(uint8_t *sig, size_t *siglen,
  const uint8_t *m, size_t mlen, const uint8_t *sk)`: status, `sig`. -/
  crypto_sign_signature : (m sk : Bytes) → σ → σ × Int × Bytes
  /-- The declaration `int crypto_sign_verify(const uint8_t *sig, size_t siglen,
  const uint8_t *m, size_t mlen, const uint8_t *pk)`: status. -/
  crypto_sign_verify : (sig m pk : Bytes) → σ → σ × Int
  /-- The declaration `int crypto_sign(uint8_t *sm, size_t *smlen,
  const uint8_t *m, size_t mlen, const uint8_t *sk)`: status, `sm`. -/
  crypto_sign : (m sk : Bytes) → σ → σ × Int × Bytes
  /-- The declaration `int crypto_sign_open(uint8_t *m, size_t *mlen,
  const uint8_t *sm, size_t smlen, const uint8_t *pk)`: status, `m`. -/
  crypto_sign_open : (sm pk : Bytes) → σ → σ × Int × Bytes

/-- The names of the functions a header can declare, without the
`PQCLEAN_..._` prefix of the implementation. -/
inductive EntryPoint where
  | crypto_kem_keypair
  | crypto_kem_enc
  | crypto_kem_dec
  | crypto_sign_keypair
  | crypto_sign_signature
  | crypto_sign_verify
  | crypto_sign
  | crypto_sign_open
  deriving DecidableEq, Repr

/-- The function names declared by the FrodoKEM header, lines 14 to 18. -/
def frodokem1344shakeOperations : List String :=
  ["PQCLEAN_FRODOKEM1344SHAKE_OPT_crypto_kem_keypair",
   "PQCLEAN_FRODOKEM1344SHAKE_OPT_crypto_kem_enc",
   "PQCLEAN_FRODOKEM1344SHAKE_OPT_crypto_kem_dec"]

/-- The function names declared by the Rainbow header, lines 12 to 29. -/
def rainbowVcClassicOperations : List String :=
  ["PQCLEAN_RAINBOWVCCLASSIC_CLEAN_crypto_sign_keypair",
   "PQCLEAN_RAINBOWVCCLASSIC_CLEAN_crypto_sign_signature",
   "PQCLEAN_RAINBOWVCCLASSIC_CLEAN_crypto_sign_verify",
   "PQCLEAN_RAINBOWVCCLASSIC_CLEAN_crypto_sign",
   "PQCLEAN_RAINBOWVCCLASSIC_CLEAN_crypto_sign_open"]

/-! ## Descriptors, registry and invocation contract

The layer that wraps the declared functions (descriptor records, the registry
and the length-checking operations) has no source file next to the headers;
what follows is written from sections 3, 4 and 7 of the specification. -/

/-- Modelled from the spec: the error taxonomy of section 7.  The layer that
raises these errors is missing from the sources. -/
inductive ContractError where
  | UnknownPrimitiveError
  | DuplicateNameError
  | InvalidKeyLengthError
  | InvalidCiphertextLengthError
  | VerificationFailedError
  | RandomnessUnavailableError
  deriving DecidableEq, Repr

/-- Modelled from the spec: the capability kind of a descriptor (section 3),
`enum{KEM, Signature}`.  The descriptor type is missing from the sources. -/
inductive Kind where
  | KEM
  | Signature
  deriving DecidableEq, Repr

/-- Modelled from the spec: the record `PrimitiveDescriptor` of section 3,
which is missing from the sources.  `ciphertext_len` is present for a KEM
only. -/
structure PrimitiveDescriptor where
  name : String
  kind : Kind
  public_key_len : Nat
  secret_key_len : Nat
  shared_secret_or_sig_max_len : Nat
  ciphertext_len : Option Nat
  deriving DecidableEq, Repr

/-- Modelled from the spec: the descriptor of FrodoKEM-1344-SHAKE (the
descriptor table is missing from the sources); every field is the constant of
the header `opt/api.h`. -/
def frodokem1344shake : PrimitiveDescriptor where
  name := PQCLEAN_FRODOKEM1344SHAKE_OPT_CRYPTO_ALGNAME
  kind := Kind.KEM
  public_key_len := PQCLEAN_FRODOKEM1344SHAKE_OPT_CRYPTO_PUBLICKEYBYTES
  secret_key_len := PQCLEAN_FRODOKEM1344SHAKE_OPT_CRYPTO_SECRETKEYBYTES
  shared_secret_or_sig_max_len := PQCLEAN_FRODOKEM1344SHAKE_OPT_CRYPTO_BYTES
  ciphertext_len := some PQCLEAN_FRODOKEM1344SHAKE_OPT_CRYPTO_CIPHERTEXTBYTES

/-- Modelled from the spec: the descriptor of Rainbow-Vc-classic (the
descriptor table is missing from the sources); every field is the constant of
the header `clean/api.h`. -/
def rainbowVcClassic : PrimitiveDescriptor where
  name := PQCLEAN_RAINBOWVCCLASSIC_CLEAN_CRYPTO_ALGNAME
  kind := Kind.Signature
  public_key_len := PQCLEAN_RAINBOWVCCLASSIC_CLEAN_CRYPTO_PUBLICKEYBYTES
  secret_key_len := PQCLEAN_RAINBOWVCCLASSIC_CLEAN_CRYPTO_SECRETKEYBYTES
  shared_secret_or_sig_max_len := PQCLEAN_RAINBOWVCCLASSIC_CLEAN_CRYPTO_BYTES
  ciphertext_len := none

/-- Modelled from the spec: the registry of section 4.1 (missing from the
sources), a map from a primitive name to its descriptor and its operation
entry points, in registration order. -/
abbrev Registry := List (String × PrimitiveDescriptor × List String)

/-- Modelled from the spec: `register(name, descriptor, operations)` of
section 4.1 (missing from the sources): "adds a primitive; fails with
`DuplicateNameError` if name already registered". -/
def register (r : Registry) (name : String) (descriptor : PrimitiveDescriptor)
    (operations : List String) : Except ContractError Registry :=
  if r.any (fun e => e.1 == name) then
    Except.error ContractError.DuplicateNameError
  else
    Except.ok (r ++ [(name, descriptor, operations)])

/-- Modelled from the spec: `lookup(name) -> (descriptor, operations)` of
section 4.1 (missing from the sources): "fails with `UnknownPrimitiveError`
if not found". -/
def lookup (r : Registry) (name : String) :
    Except ContractError (PrimitiveDescriptor × List String) :=
  match r.find? (fun e => e.1 == name) with
  | some e => Except.ok e.2
  | none => Except.error ContractError.UnknownPrimitiveError

/-- Modelled from the spec: the registry after its one-time initialisation
(sections 4.1 and 5; missing from the sources), in which each of the two
primitives is registered under the `CRYPTO_ALGNAME` of its header. -/
def initialRegistry : Except ContractError Registry :=
  (register [] PQCLEAN_FRODOKEM1344SHAKE_OPT_CRYPTO_ALGNAME
      frodokem1344shake frodokem1344shakeOperations).bind
    (fun r => register r PQCLEAN_RAINBOWVCCLASSIC_CLEAN_CRYPTO_ALGNAME
      rainbowVcClassic rainbowVcClassicOperations)

/-- Modelled from the spec: what one call of an operation of the invocation
contract layer (sections 4.2, 4.3 and 7; the layer is missing from the
sources) leaves behind: the state of the surroundings after the call, the
functions of the underlying implementation that ran during the call, in
order, and the value or error handed to the caller. -/
structure Outcome (σ α : Type) where
  world : σ
  invoked : List EntryPoint
  result : Except ContractError α

/-- Modelled from the spec: `encapsulate(public_key) -> (ciphertext,
shared_secret)` of section 4.2 (missing from the sources): "requires
`len(public_key) == public_key_len`, else fails with `InvalidKeyLengthError`",
the check coming before the underlying algorithm is invoked. -/
def encapsulate {σ : Type} (impl : KemImplementation σ) (d : PrimitiveDescriptor)
    (public_key : Bytes) (w : σ) : Outcome σ (Bytes × Bytes) :=
  if public_key.length ≠ d.public_key_len then
    { world := w, invoked := [], result := Except.error ContractError.InvalidKeyLengthError }
  else
    match impl.crypto_kem_enc public_key w with
    | (w1, status, ct, ss) =>
      { world := w1
        invoked := [EntryPoint.crypto_kem_enc]
        result :=
          if status = 0 then Except.ok (ct, ss)
          else Except.error ContractError.RandomnessUnavailableError }

/-- Modelled from the spec: `decapsulate(secret_key, ciphertext) ->
shared_secret` of section 4.2 (missing from the sources): "requires exact
length matches for both inputs, else fails with
`InvalidKeyLengthError`/`InvalidCiphertextLengthError`"; once the lengths are
right the call never signals failure (implicit rejection). -/
def decapsulate {σ : Type} (impl : KemImplementation σ) (d : PrimitiveDescriptor)
    (secret_key ciphertext : Bytes) (w : σ) : Outcome σ Bytes :=
  if secret_key.length ≠ d.secret_key_len then
    { world := w, invoked := [], result := Except.error ContractError.InvalidKeyLengthError }
  else if d.ciphertext_len ≠ some ciphertext.length then
    { world := w, invoked := []
      result := Except.error ContractError.InvalidCiphertextLengthError }
  else
    match impl.crypto_kem_dec ciphertext secret_key w with
    | (w1, _, ss) =>
      { world := w1, invoked := [EntryPoint.crypto_kem_dec], result := Except.ok ss }

/-- Modelled from the spec: `sign(message, secret_key) -> Signature` of section
4.3 (missing from the sources): "requires `len(secret_key) ==
secret_key_len`"; the message may have any length. -/
def sign {σ : Type} (impl : SignImplementation σ) (d : PrimitiveDescriptor)
    (message secret_key : Bytes) (w : σ) : Outcome σ Bytes :=
  if secret_key.length ≠ d.secret_key_len then
    { world := w, invoked := [], result := Except.error ContractError.InvalidKeyLengthError }
  else
    match impl.crypto_sign_signature message secret_key w with
    | (w1, status, sig) =>
      { world := w1
        invoked := [EntryPoint.crypto_sign_signature]
        result :=
          if status = 0 then Except.ok sig
          else Except.error ContractError.RandomnessUnavailableError }

/-- Modelled from the spec: `verify(signature, message, public_key) ->
bool_or_error` of section 4.3 (missing from the sources): "requires exact
public_key length; fails with `VerificationFailedError` [...] when the
signature does not authenticate the message". -/
def verify {σ : Type} (impl : SignImplementation σ) (d : PrimitiveDescriptor)
    (signature message public_key : Bytes) (w : σ) : Outcome σ Bool :=
  if public_key.length ≠ d.public_key_len then
    { world := w, invoked := [], result := Except.error ContractError.InvalidKeyLengthError }
  else
    match impl.crypto_sign_verify signature message public_key w with
    | (w1, status) =>
      { world := w1
        invoked := [EntryPoint.crypto_sign_verify]
        result :=
          if status = 0 then Except.ok true
          else Except.error ContractError.VerificationFailedError }

/-- Modelled from the spec: `sign_attached(message, secret_key) ->
signed_message` of section 4.3 (missing from the sources), with the length
check of the failure semantics of sections 4.2/4.3. -/
def sign_attached {σ : Type} (impl : SignImplementation σ) (d : PrimitiveDescriptor)
    (message secret_key : Bytes) (w : σ) : Outcome σ Bytes :=
  if secret_key.length ≠ d.secret_key_len then
    { world := w, invoked := [], result := Except.error ContractError.InvalidKeyLengthError }
  else
    match impl.crypto_sign message secret_key w with
    | (w1, status, sm) =>
      { world := w1
        invoked := [EntryPoint.crypto_sign]
        result :=
          if status = 0 then Except.ok sm
          else Except.error ContractError.RandomnessUnavailableError }

/-- Modelled from the spec: `open(signed_message, public_key) -> message` of
section 4.3 (missing from the sources), with the length check of the failure
semantics of sections 4.2/4.3; it "must fail closed (reject and return no
message) on any verification failure". -/
def open_signed {σ : Type} (impl : SignImplementation σ) (d : PrimitiveDescriptor)
    (signed_message public_key : Bytes) (w : σ) : Outcome σ Bytes :=
  if public_key.length ≠ d.public_key_len then
    { world := w, invoked := [], result := Except.error ContractError.InvalidKeyLengthError }
  else
    match impl.crypto_sign_open signed_message public_key w with
    | (w1, status, m) =>
      { world := w1
        invoked := [EntryPoint.crypto_sign_open]
        result :=
          if status = 0 then Except.ok m
          else Except.error ContractError.VerificationFailedError }

/-- A KEM implementation over the one-point state that writes all-zero buffers
of the FrodoKEM-1344-SHAKE sizes and reports success; a concrete instance to
run the contract layer on. -/
def zeroKem : KemImplementation Unit where
  crypto_kem_keypair := fun w =>
    (w, 0, List.replicate PQCLEAN_FRODOKEM1344SHAKE_OPT_CRYPTO_PUBLICKEYBYTES 0,
      List.replicate PQCLEAN_FRODOKEM1344SHAKE_OPT_CRYPTO_SECRETKEYBYTES 0)
  crypto_kem_enc := fun _ w =>
    (w, 0, List.replicate PQCLEAN_FRODOKEM1344SHAKE_OPT_CRYPTO_CIPHERTEXTBYTES 0,
      List.replicate PQCLEAN_FRODOKEM1344SHAKE_OPT_CRYPTO_BYTES 0)
  crypto_kem_dec := fun _ _ w =>
    (w, 0, List.replicate PQCLEAN_FRODOKEM1344SHAKE_OPT_CRYPTO_BYTES 0)

/-- A signature implementation over the one-point state that writes empty
signatures, accepts every signature and reports success; a concrete instance
to run the contract layer on. -/
def zeroSign : SignImplementation Unit where
  crypto_sign_keypair := fun w =>
    (w, 0, List.replicate PQCLEAN_RAINBOWVCCLASSIC_CLEAN_CRYPTO_PUBLICKEYBYTES 0,
      List.replicate PQCLEAN_RAINBOWVCCLASSIC_CLEAN_CRYPTO_SECRETKEYBYTES 0)
  crypto_sign_signature := fun _ _ w => (w, 0, [])
  crypto_sign_verify := fun _ _ _ w => (w, 0)
  crypto_sign := fun m _ w => (w, 0, m)
  crypto_sign_open := fun sm _ w => (w, 0, sm)

/-! ## The size constants -/

/-- C1: the ciphertext length of FrodoKEM-1344-SHAKE is exactly 21632 and the
secret-key length of Rainbow-Vc-classic is exactly 1227104. -/
theorem published_sizes :
    PQCLEAN_FRODOKEM1344SHAKE_OPT_CRYPTO_CIPHERTEXTBYTES = 21632 ∧
    PQCLEAN_RAINBOWVCCLASSIC_CLEAN_CRYPTO_SECRETKEYBYTES = 1227104 :=
  ⟨rfl, rfl⟩

/-- C6: the shared secret of FrodoKEM-1344-SHAKE has the fixed length of 32
bytes. -/
theorem shared_secret_bytes :
    PQCLEAN_FRODOKEM1344SHAKE_OPT_CRYPTO_BYTES = 32 :=
  rfl

/-- C7: every length constant of the two headers is strictly positive: the
secret-key, public-key, shared-secret and ciphertext lengths of
FrodoKEM-1344-SHAKE and the secret-key, public-key and maximum-signature
lengths of Rainbow-Vc-classic. -/
theorem lengths_positive :
    (0 < PQCLEAN_FRODOKEM1344SHAKE_OPT_CRYPTO_SECRETKEYBYTES ∧
      0 < PQCLEAN_FRODOKEM1344SHAKE_OPT_CRYPTO_PUBLICKEYBYTES ∧
      0 < PQCLEAN_FRODOKEM1344SHAKE_OPT_CRYPTO_BYTES ∧
      0 < PQCLEAN_FRODOKEM1344SHAKE_OPT_CRYPTO_CIPHERTEXTBYTES) ∧
    (0 < PQCLEAN_RAINBOWVCCLASSIC_CLEAN_CRYPTO_SECRETKEYBYTES ∧
      0 < PQCLEAN_RAINBOWVCCLASSIC_CLEAN_CRYPTO_PUBLICKEYBYTES ∧
      0 < PQCLEAN_RAINBOWVCCLASSIC_CLEAN_CRYPTO_BYTES) := by
  decide

/-! ## The formulas in the comments of the FrodoKEM header -/

/-- C8: with `PARAMS_N = 1344`, `PARAMS_NBAR = 8`, `sizeof(s) = 32` and
`BYTES_PKHASH = 32`, the formula in the comment of line 7, in which
`CRYPTO_PUBLICKEYBYTES` is the constant of line 8 (21520), evaluates to the
secret-key constant of line 7, which is 43088. -/
theorem secretkeybytes_formula (p : FrodoParams)
    (hN : p.PARAMS_N = 1344) (hNbar : p.PARAMS_NBAR = 8)
    (hs : p.sizeof_s = 32) (hH : p.BYTES_PKHASH = 32) :
    PQCLEAN_FRODOKEM1344SHAKE_OPT_CRYPTO_PUBLICKEYBYTES = 21520 ∧
    secretKeyBytesFormula p = PQCLEAN_FRODOKEM1344SHAKE_OPT_CRYPTO_SECRETKEYBYTES ∧
    PQCLEAN_FRODOKEM1344SHAKE_OPT_CRYPTO_SECRETKEYBYTES = 43088 := by
  refine ⟨rfl, ?_, rfl⟩
  simp only [secretKeyBytesFormula, hN, hNbar, hs, hH,
    PQCLEAN_FRODOKEM1344SHAKE_OPT_CRYPTO_PUBLICKEYBYTES,
    PQCLEAN_FRODOKEM1344SHAKE_OPT_CRYPTO_SECRETKEYBYTES]

/-- Witness of `secretkeybytes_formula` at the FrodoKEM-1344 parameters. -/
theorem secretkeybytes_formula_witness :
    PQCLEAN_FRODOKEM1344SHAKE_OPT_CRYPTO_PUBLICKEYBYTES = 21520 ∧
    secretKeyBytesFormula frodo1344Params
      = PQCLEAN_FRODOKEM1344SHAKE_OPT_CRYPTO_SECRETKEYBYTES ∧
    PQCLEAN_FRODOKEM1344SHAKE_OPT_CRYPTO_SECRETKEYBYTES = 43088 :=
  secretkeybytes_formula frodo1344Params rfl rfl rfl rfl

/-- C9: with `PARAMS_LOGQ = 16`, `PARAMS_N = 1344`, `PARAMS_NBAR = 8` and
`sizeof(seed_A) = 16`, the formula in the comment of line 8 evaluates to the
public-key constant 21520 and the formula in the comment of line 10 to the
ciphertext constant 21632, and both divisions by 8 leave no remainder. -/
theorem publickey_ciphertext_formulas (p : FrodoParams)
    (hQ : p.PARAMS_LOGQ = 16) (hN : p.PARAMS_N = 1344) (hNbar : p.PARAMS_NBAR = 8)
    (hA : p.sizeof_seed_A = 16) :
    (publicKeyBytesFormula p = PQCLEAN_FRODOKEM1344SHAKE_OPT_CRYPTO_PUBLICKEYBYTES ∧
      PQCLEAN_FRODOKEM1344SHAKE_OPT_CRYPTO_PUBLICKEYBYTES = 21520) ∧
    (ciphertextBytesFormula p = PQCLEAN_FRODOKEM1344SHAKE_OPT_CRYPTO_CIPHERTEXTBYTES ∧
      PQCLEAN_FRODOKEM1344SHAKE_OPT_CRYPTO_CIPHERTEXTBYTES = 21632) ∧
    (p.PARAMS_LOGQ * p.PARAMS_N * p.PARAMS_NBAR) % 8 = 0 ∧
    (p.PARAMS_LOGQ * p.PARAMS_NBAR * p.PARAMS_NBAR) % 8 = 0 := by
  refine ⟨⟨?_, rfl⟩, ⟨?_, rfl⟩, ?_, ?_⟩
  · simp only [publicKeyBytesFormula, hQ, hN, hNbar, hA,
      PQCLEAN_FRODOKEM1344SHAKE_OPT_CRYPTO_PUBLICKEYBYTES]
  · simp only [ciphertextBytesFormula, hQ, hN, hNbar,
      PQCLEAN_FRODOKEM1344SHAKE_OPT_CRYPTO_CIPHERTEXTBYTES]
  · simp only [hQ, hN, hNbar]
  · simp only [hQ, hNbar]

/-- Witness of `publickey_ciphertext_formulas` at the FrodoKEM-1344
parameters. -/
theorem publickey_ciphertext_formulas_witness :
    (publicKeyBytesFormula frodo1344Params
        = PQCLEAN_FRODOKEM1344SHAKE_OPT_CRYPTO_PUBLICKEYBYTES ∧
      PQCLEAN_FRODOKEM1344SHAKE_OPT_CRYPTO_PUBLICKEYBYTES = 21520) ∧
    (ciphertextBytesFormula frodo1344Params
        = PQCLEAN_FRODOKEM1344SHAKE_OPT_CRYPTO_CIPHERTEXTBYTES ∧
      PQCLEAN_FRODOKEM1344SHAKE_OPT_CRYPTO_CIPHERTEXTBYTES = 21632) ∧
    (frodo1344Params.PARAMS_LOGQ * frodo1344Params.PARAMS_N
        * frodo1344Params.PARAMS_NBAR) % 8 = 0 ∧
    (frodo1344Params.PARAMS_LOGQ * frodo1344Params.PARAMS_NBAR
        * frodo1344Params.PARAMS_NBAR) % 8 = 0 :=
  publickey_ciphertext_formulas frodo1344Params rfl rfl rfl rfl

/-! ## The Rainbow public key -/

/-- C10: the numbers in the algorithm name of the Rainbow header are
256, 92, 48, 48; with (v1, o1, o2) = (92, 48, 48), n = v1 + o1 + o2 variables
and m = o1 + o2 equations, the number m * n * (n + 1) / 2 of coefficients of
m quadratic forms in n variables, at one byte per coefficient of GF(256), is
the public-key constant 1705536 (and the division by 2 is exact). -/
theorem rainbow_publickeybytes_formula (v1 o1 o2 n m : Nat)
    (hv1 : v1 = 92) (ho1 : o1 = 48) (ho2 : o2 = 48)
    (hn : n = v1 + o1 + o2) (hm : m = o1 + o2) :
    algnameNumbers PQCLEAN_RAINBOWVCCLASSIC_CLEAN_CRYPTO_ALGNAME = [256, v1, o1, o2] ∧
    m * n * (n + 1) / 2 = PQCLEAN_RAINBOWVCCLASSIC_CLEAN_CRYPTO_PUBLICKEYBYTES ∧
    PQCLEAN_RAINBOWVCCLASSIC_CLEAN_CRYPTO_PUBLICKEYBYTES = 1705536 ∧
    (m * n * (n + 1)) % 2 = 0 := by
  subst hv1 ho1 ho2
  subst hn hm
  refine ⟨by decide, ?_, rfl, ?_⟩
  · simp only [PQCLEAN_RAINBOWVCCLASSIC_CLEAN_CRYPTO_PUBLICKEYBYTES]
  · rfl

/-- Witness of `rainbow_publickeybytes_formula` at (92, 48, 48), n = 188 and
m = 96. -/
theorem rainbow_publickeybytes_formula_witness :
    algnameNumbers PQCLEAN_RAINBOWVCCLASSIC_CLEAN_CRYPTO_ALGNAME = [256, 92, 48, 48] ∧
    96 * 188 * (188 + 1) / 2 = PQCLEAN_RAINBOWVCCLASSIC_CLEAN_CRYPTO_PUBLICKEYBYTES ∧
    PQCLEAN_RAINBOWVCCLASSIC_CLEAN_CRYPTO_PUBLICKEYBYTES = 1705536 ∧
    (96 * 188 * (188 + 1)) % 2 = 0 :=
  rainbow_publickeybytes_formula 92 48 48 188 96 rfl rfl rfl rfl rfl

/-! ## Algorithm names and the registry -/

/-- C2: the algorithm name of the FrodoKEM header is the string
"FrodoKEM-1344-SHAKE" and that of the Rainbow header is the string
"RAINBOW(256,92,48,48) - classic", byte for byte; the two names differ, and in
the registry initialised with the two primitives a lookup by either published
string succeeds and returns the descriptor and the entry points of the
intended primitive. -/
theorem algnames_select_primitives :
    PQCLEAN_FRODOKEM1344SHAKE_OPT_CRYPTO_ALGNAME = "FrodoKEM-1344-SHAKE" ∧
    PQCLEAN_RAINBOWVCCLASSIC_CLEAN_CRYPTO_ALGNAME = "RAINBOW(256,92,48,48) - classic" ∧
    literalBytes PQCLEAN_FRODOKEM1344SHAKE_OPT_CRYPTO_ALGNAME =
      [70, 114, 111, 100, 111, 75, 69, 77, 45, 49, 51, 52, 52, 45, 83, 72, 65, 75, 69] ∧
    literalBytes PQCLEAN_RAINBOWVCCLASSIC_CLEAN_CRYPTO_ALGNAME =
      [82, 65, 73, 78, 66, 79, 87, 40, 50, 53, 54, 44, 57, 50, 44, 52, 56, 44, 52, 56, 41,
       32, 45, 32, 99, 108, 97, 115, 115, 105, 99] ∧
    PQCLEAN_FRODOKEM1344SHAKE_OPT_CRYPTO_ALGNAME
      ≠ PQCLEAN_RAINBOWVCCLASSIC_CLEAN_CRYPTO_ALGNAME ∧
    ∃ registry, initialRegistry = Except.ok registry ∧
      lookup registry "FrodoKEM-1344-SHAKE"
        = Except.ok (frodokem1344shake, frodokem1344shakeOperations) ∧
      lookup registry "RAINBOW(256,92,48,48) - classic"
        = Except.ok (rainbowVcClassic, rainbowVcClassicOperations) ∧
      frodokem1344shake.kind = Kind.KEM ∧
      rainbowVcClassic.kind = Kind.Signature := by
  refine ⟨rfl, rfl, by decide, by decide, by decide, ?_⟩
  refine ⟨[(PQCLEAN_FRODOKEM1344SHAKE_OPT_CRYPTO_ALGNAME, frodokem1344shake,
              frodokem1344shakeOperations),
            (PQCLEAN_RAINBOWVCCLASSIC_CLEAN_CRYPTO_ALGNAME, rainbowVcClassic,
              rainbowVcClassicOperations)], ?_, ?_, ?_, rfl, rfl⟩
  · rfl
  · rfl
  · rfl

/-! ## Length validation in the invocation contract -/

/-- With buffers of the right lengths every operation of the contract layer
does run the function of the implementation it wraps. -/
theorem right_lengths_dispatch {σ : Type} (kem : KemImplementation σ)
    (sgn : SignImplementation σ) (d : PrimitiveDescriptor) (w : σ)
    (pk sk ct m sig : Bytes)
    (hpk : pk.length = d.public_key_len) (hsk : sk.length = d.secret_key_len)
    (hct : d.ciphertext_len = some ct.length) :
    (encapsulate kem d pk w).invoked = [EntryPoint.crypto_kem_enc] ∧
    (decapsulate kem d sk ct w).invoked = [EntryPoint.crypto_kem_dec] ∧
    (sign sgn d m sk w).invoked = [EntryPoint.crypto_sign_signature] ∧
    (verify sgn d sig m pk w).invoked = [EntryPoint.crypto_sign_verify] ∧
    (sign_attached sgn d m sk w).invoked = [EntryPoint.crypto_sign] ∧
    (open_signed sgn d m pk w).invoked = [EntryPoint.crypto_sign_open] := by
  simp [encapsulate, decapsulate, sign, verify, sign_attached, open_signed, hpk, hsk, hct]

/-- C5: length validation is fail-fast.  For every implementation, descriptor
and state of the surroundings: `encapsulate` with a public key whose length
differs from `public_key_len` (21520 for FrodoKEM-1344-SHAKE) fails with
`InvalidKeyLengthError`; `decapsulate` with a secret key or a ciphertext of
the wrong length fails with `InvalidKeyLengthError` or
`InvalidCiphertextLengthError` (the former when only the key is wrong, the
latter when only the ciphertext is wrong); `sign`, `verify`, `sign_attached`
and `open` with a key of the wrong length fail with `InvalidKeyLengthError`.
In each case no function of the underlying implementation has run and the
state of the surroundings is unchanged. -/
theorem length_validation_fail_fast {σ : Type} (kem : KemImplementation σ)
    (sgn : SignImplementation σ) (d : PrimitiveDescriptor) (w : σ) :
    (∀ pk : Bytes, pk.length ≠ d.public_key_len →
      encapsulate kem d pk w
        = ⟨w, [], Except.error ContractError.InvalidKeyLengthError⟩) ∧
    (frodokem1344shake.public_key_len = 21520 ∧
      ∀ pk : Bytes, pk.length ≠ 21520 →
        encapsulate kem frodokem1344shake pk w
          = ⟨w, [], Except.error ContractError.InvalidKeyLengthError⟩) ∧
    (∀ sk ct : Bytes,
      sk.length ≠ d.secret_key_len ∨ d.ciphertext_len ≠ some ct.length →
      ∃ e, (e = ContractError.InvalidKeyLengthError
            ∨ e = ContractError.InvalidCiphertextLengthError) ∧
        decapsulate kem d sk ct w = ⟨w, [], Except.error e⟩) ∧
    (∀ sk ct : Bytes,
      sk.length ≠ d.secret_key_len → d.ciphertext_len = some ct.length →
      decapsulate kem d sk ct w
        = ⟨w, [], Except.error ContractError.InvalidKeyLengthError⟩) ∧
    (∀ sk ct : Bytes,
      sk.length = d.secret_key_len → d.ciphertext_len ≠ some ct.length →
      decapsulate kem d sk ct w
        = ⟨w, [], Except.error ContractError.InvalidCiphertextLengthError⟩) ∧
    (∀ m sk : Bytes, sk.length ≠ d.secret_key_len →
      sign sgn d m sk w
        = ⟨w, [], Except.error ContractError.InvalidKeyLengthError⟩) ∧
    (∀ sig m pk : Bytes, pk.length ≠ d.public_key_len →
      verify sgn d sig m pk w
        = ⟨w, [], Except.error ContractError.InvalidKeyLengthError⟩) ∧
    (∀ m sk : Bytes, sk.length ≠ d.secret_key_len →
      sign_attached sgn d m sk w
        = ⟨w, [], Except.error ContractError.InvalidKeyLengthError⟩) ∧
    (∀ sm pk : Bytes, pk.length ≠ d.public_key_len →
      open_signed sgn d sm pk w
        = ⟨w, [], Except.error ContractError.InvalidKeyLengthError⟩) := by
  refine ⟨?_, ⟨rfl, ?_⟩, ?_, ?_, ?_, ?_, ?_, ?_, ?_⟩
  · intro pk h
    simp [encapsulate, h]
  · intro pk h
    have h1 : pk.length ≠ frodokem1344shake.public_key_len := h
    simp [encapsulate, h1]
  · intro sk ct h
    by_cases hsk : sk.length = d.secret_key_len
    · have hct : d.ciphertext_len ≠ some ct.length := h.resolve_left (not_not.mpr hsk)
      exact ⟨ContractError.InvalidCiphertextLengthError, Or.inr rfl, by
        simp [decapsulate, hsk, hct]⟩
    · exact ⟨ContractError.InvalidKeyLengthError, Or.inl rfl, by
        simp [decapsulate, hsk]⟩
  · intro sk ct h _
    simp [decapsulate, h]
  · intro sk ct hsk hct
    simp [decapsulate, hsk, hct]
  · intro m sk h
    simp [sign, h]
  · intro sig m pk h
    simp [verify, h]
  · intro m sk h
    simp [sign_attached, h]
  · intro sm pk h
    simp [open_signed, h]

/-- Witness of `length_validation_fail_fast`: with empty buffers, whose length
0 differs from every length of the two descriptors, each operation is rejected
before the implementation runs. -/
theorem length_validation_fail_fast_witness :
    encapsulate zeroKem frodokem1344shake [] ()
      = ⟨(), [], Except.error ContractError.InvalidKeyLengthError⟩ ∧
    decapsulate zeroKem frodokem1344shake
        (List.replicate PQCLEAN_FRODOKEM1344SHAKE_OPT_CRYPTO_SECRETKEYBYTES 0) [] ()
      = ⟨(), [], Except.error ContractError.InvalidCiphertextLengthError⟩ ∧
    sign zeroSign rainbowVcClassic [1, 2, 3] [] ()
      = ⟨(), [], Except.error ContractError.InvalidKeyLengthError⟩ ∧
    open_signed zeroSign rainbowVcClassic [1, 2, 3] [] ()
      = ⟨(), [], Except.error ContractError.InvalidKeyLengthError⟩ :=
  ⟨(length_validation_fail_fast zeroKem zeroSign frodokem1344shake ()).2.1.2 []
      (by decide),
    (length_validation_fail_fast zeroKem zeroSign frodokem1344shake ()).2.2.2.2.1
      (List.replicate PQCLEAN_FRODOKEM1344SHAKE_OPT_CRYPTO_SECRETKEYBYTES 0) []
      (by simp [frodokem1344shake]) (by decide),
    (length_validation_fail_fast zeroKem zeroSign rainbowVcClassic ()).2.2.2.2.2.1
      [1, 2, 3] [] (by decide),
    (length_validation_fail_fast zeroKem zeroSign rainbowVcClassic ()).2.2.2.2.2.2.2.2
      [1, 2, 3] [] (by decide)⟩

end PQClean
